import Mathlib

/-!
Verification of the M-Pesa payment demo (Express backend `server.js` plus the
React payment wizard `MpesaPayment.tsx`) against its design specification.

The backend's pure logic is embedded shallowly: the in-memory `transactions`
Map becomes a `List Transaction` threaded through each handler, the two
outbound network calls (OAuth token fetch, STK push submission) become an
explicit `GatewayBehavior` environment, and JavaScript string/number builtins
(`parseFloat`, `Number`/`isNaN`, `Math.round`, base64 via `Buffer`) are given
executable Lean models covering the plain-decimal forms that occur in this
system (exponent, hexadecimal and `Infinity` literal forms are out of scope).
-/

namespace Mpesa

/-! ## JavaScript numeric builtins

The JavaScript numbers that matter here all arise by parsing plain decimal
strings, so they are modelled exactly as scaled decimals: a `Decimal` with
numerator `num` and fractional-digit count `scale` denotes the rational
`num / 10 ^ scale` (see `Decimal.toRat`). This representation is computable
by the kernel; the bridging lemmas `Decimal.ltInt_iff` and
`jsRound_eq_floor` tie the `Bool`/`ℤ` operations used in the handlers to
their rational meaning. -/

/-- An exact decimal: the value `num / 10 ^ scale`. -/
structure Decimal where
  num : ℤ
  scale : ℕ
deriving DecidableEq

/-- Rational value of a decimal. -/
def Decimal.toRat (d : Decimal) : ℚ := (d.num : ℚ) / (10 : ℚ) ^ d.scale

/-- The comparison `d < n` against an integer, by cross-multiplication. -/
def Decimal.ltInt (d : Decimal) (n : ℤ) : Bool :=
  d.num < n * (10 : ℤ) ^ d.scale

/-- The comparison `Decimal.ltInt` agrees with the rational comparison. -/
theorem Decimal.ltInt_iff (d : Decimal) (n : ℤ) :
    d.ltInt n = true ↔ d.toRat < (n : ℚ) := by
  have hpos : (0 : ℚ) < (10 : ℚ) ^ d.scale := by positivity
  rw [Decimal.ltInt, Decimal.toRat, decide_eq_true_eq, div_lt_iff₀ hpos]
  constructor
  · intro h
    exact_mod_cast h
  · intro h
    exact_mod_cast h

/-- Value of a list of ASCII decimal digit characters, most significant first. -/
def digitsToNat (ds : List Char) : Nat :=
  ds.foldl (fun n c => 10 * n + (c.toNat - ('0').toNat)) 0

/-- Decimal with the given sign, integer digits, and fractional digits. -/
def mkDecimal (sgn : ℤ) (intPart fracPart : List Char) : Decimal :=
  { num := sgn * ((digitsToNat intPart : ℤ) * (10 : ℤ) ^ fracPart.length +
      (digitsToNat fracPart : ℤ))
    scale := fracPart.length }

/-- Model of JavaScript `parseFloat` on a string: skip leading whitespace,
then parse the longest prefix of the form `[+|-] digits [. digits]` or
`[+|-] . digits`; `none` models `NaN` (no digit found). Trailing junk is
ignored, as `parseFloat` ignores it. Exponent, hexadecimal and `Infinity`
forms are outside this model. -/
def jsParseFloat (s : String) : Option Decimal :=
  let cs := s.data.dropWhile (fun c => c.isWhitespace)
  let sgn : ℤ := match cs with
    | '-' :: _ => -1
    | _ => 1
  let cs := match cs with
    | '-' :: rest => rest
    | '+' :: rest => rest
    | _ => cs
  let intPart := cs.takeWhile (fun c => c.isDigit)
  let rest := cs.drop intPart.length
  let fracPart := match rest with
    | '.' :: r => r.takeWhile (fun c => c.isDigit)
    | _ => []
  if intPart = [] ∧ fracPart = [] then none
  else some (mkDecimal sgn intPart fracPart)

/-- Model of JavaScript `Number(s)` string coercion (what `isNaN(s)` applies
to a string argument): trim whitespace, the empty string coerces to `0`,
otherwise the whole string must be a signed plain decimal; `none` models
`NaN`. -/
def jsNumber (s : String) : Option Decimal :=
  let cs := s.data.dropWhile (fun c => c.isWhitespace)
  let cs := (cs.reverse.dropWhile (fun c => c.isWhitespace)).reverse
  if cs = [] then some { num := 0, scale := 0 }
  else
    let sgn : ℤ := match cs with
      | '-' :: _ => -1
      | _ => 1
    let cs := match cs with
      | '-' :: rest => rest
      | '+' :: rest => rest
      | _ => cs
    let intPart := cs.takeWhile (fun c => c.isDigit)
    let rest := cs.drop intPart.length
    match rest with
    | [] => if intPart = [] then none else some (mkDecimal sgn intPart [])
    | '.' :: r =>
      let fracPart := r.takeWhile (fun c => c.isDigit)
      if r.drop fracPart.length ≠ [] then none
      else if intPart = [] ∧ fracPart = [] then none
      else some (mkDecimal sgn intPart fracPart)
    | _ => none

/-- Model of JavaScript `Math.round`: round half towards positive infinity,
computed on the decimal as `(2 num + 10 ^ scale) / (2 · 10 ^ scale)` in
floor division (see `jsRound_eq_floor`). -/
def jsRound (d : Decimal) : ℤ :=
  (2 * d.num + (10 : ℤ) ^ d.scale) / ((2 * 10 ^ d.scale : ℕ) : ℤ)

/-- Rounding `jsRound` is `⌊x + 1/2⌋`, the `Math.round` semantics. -/
theorem jsRound_eq_floor (d : Decimal) : jsRound d = ⌊d.toRat + 1 / 2⌋ := by
  rw [jsRound, Decimal.toRat, ← Rat.floor_intCast_div_natCast]
  congr 1
  have hpos : (0 : ℚ) < (10 : ℚ) ^ d.scale := by positivity
  field_simp
  ring

/-- Model of the JavaScript `x || d` default on an optional string field:
`undefined` and the empty string both fall back to the default. -/
def jsOr (o : Option String) (d : String) : String :=
  match o with
  | some s => if s = "" then d else s
  | none => d

/-! ## Base64 and `generatePassword` -/

/-- The standard base64 alphabet, as used by `Buffer.toString('base64')`. -/
def base64Chars : List Char :=
  "ABCDEFGHIJKLMNOPQRSTUVWXYZabcdefghijklmnopqrstuvwxyz0123456789+/".data

/-- Character of the base64 alphabet at index `n` (callers keep `n < 64`). -/
def b64c (n : Nat) : Char := base64Chars.getD n 'A'

/-- UTF-8 encoding of a Unicode code point, as `Buffer.from(string)` uses. -/
def utf8Bytes (c : Nat) : List Nat :=
  if c < 128 then [c]
  else if c < 2048 then [192 + c / 64, 128 + c % 64]
  else if c < 65536 then [224 + c / 4096, 128 + c / 64 % 64, 128 + c % 64]
  else [240 + c / 262144, 128 + c / 4096 % 64, 128 + c / 64 % 64, 128 + c % 64]

/-- UTF-8 byte sequence of a string. -/
def strBytes (s : String) : List Nat :=
  (s.data.map (fun c => utf8Bytes c.toNat)).flatten

/-- Standard base64 encoding of a byte sequence, with `=` padding. -/
def base64Encode : List Nat → List Char
  | [] => []
  | [b1] => [b64c (b1 / 4), b64c (b1 % 4 * 16), '=', '=']
  | [b1, b2] => [b64c (b1 / 4), b64c (b1 % 4 * 16 + b2 / 16), b64c (b2 % 16 * 4), '=']
  | b1 :: b2 :: b3 :: rest =>
    b64c (b1 / 4) :: b64c (b1 % 4 * 16 + b2 / 16) ::
      b64c (b2 % 16 * 4 + b3 / 64) :: b64c (b3 % 64) :: base64Encode rest

/-- Base64 encoding of a string's UTF-8 bytes:
`Buffer.from(s).toString('base64')`. -/
def base64EncodeStr (s : String) : String := String.mk (base64Encode (strBytes s))

/-- The `MPESA_CONFIG` object: externally supplied configuration. -/
structure MpesaConfig where
  consumerKey : String
  consumerSecret : String
  businessShortCode : String
  passkey : String
  callbackURL : String
deriving DecidableEq

/-- Function `generatePassword(timestamp)` from `server.js`: base64 of the template
literal concatenating business short code, passkey, and the timestamp. -/
def generatePassword (cfg : MpesaConfig) (timestamp : String) : String :=
  base64EncodeStr (cfg.businessShortCode ++ cfg.passkey ++ timestamp)

/-! ## Phone normalization (`formatPhoneNumber`) -/

/-- List-level body of `formatPhoneNumber` from `server.js`:
`phone.replace(/\D/g, '')`, then `startsWith('0')` → replace the `0` by
`254`, then if not `startsWith('254')` → prepend `254`. -/
def formatPhoneList (ds0 : List Char) : List Char :=
  let ds := ds0.filter (fun c => c.isDigit)
  let ds2 := if ds.take 1 = ['0'] then '2' :: '5' :: '4' :: ds.drop 1 else ds
  if ds2.take 3 = ['2', '5', '4'] then ds2 else '2' :: '5' :: '4' :: ds2

/-- Function `formatPhoneNumber(phone)` from `server.js`. -/
def formatPhoneNumber (phone : String) : String :=
  String.mk (formatPhoneList phone.data)

/-- Canonical phone form of the spec: `254` followed by nine digits
(the regex `/^254[0-9]{9}$/`). -/
def isCanonicalList (l : List Char) : Bool :=
  l.length == 12 && l.take 3 == ['2', '5', '4'] && l.all (fun c => c.isDigit)

/-- Canonical phone form, on strings. -/
def isCanonicalPhone (s : String) : Bool := isCanonicalList s.data

/-! ## Data model -/

/-- Transaction status strings assigned in `server.js`: records are created
`PENDING` and the callback handler assigns `SUCCESS` or `FAILED`. -/
inductive Status where
  | PENDING
  | SUCCESS
  | FAILED
deriving DecidableEq

/-- One entry of `stkCallback.CallbackMetadata.Item`; `Name` and `Value` may
be absent in the JSON payload. -/
structure MetaItem where
  Name : Option String
  Value : Option String
deriving DecidableEq

/-- The `CallbackMetadata` object of an STK callback; its `Item` list may be
absent (the handler reads it with `CallbackMetadata?.Item?`). -/
structure CallbackMetadata where
  Item : Option (List MetaItem)
deriving DecidableEq

/-- The `Body.stkCallback` object of the gateway's asynchronous notification.
Fields are optional where the handler tolerates their absence; an absent
field models JavaScript `undefined`. -/
structure StkCallback where
  MerchantRequestID : Option String
  CheckoutRequestID : Option String
  ResultCode : Option Int
  ResultDesc : Option String
  CallbackMetadata : Option CallbackMetadata
deriving DecidableEq

/-- The gateway's immediate acknowledgment of an STK push
(`mpesaResponse` in `server.js`); fields optional as JSON fields are. -/
structure MpesaResponse where
  ResponseCode : Option String
  ResponseDescription : Option String
  MerchantRequestID : Option String
  CheckoutRequestID : Option String
deriving DecidableEq

/-- A record of the in-memory `transactions` Map. `amount` is
`parseFloat(amount)` (`none` models `NaN`); `timestamp` is the creation
instant (`new Date()`), modelled as an abstract tick. -/
structure Transaction where
  transactionId : String
  checkoutRequestId : Option String
  merchantRequestId : Option String
  amount : Option Decimal
  phoneNumber : String
  accountReference : String
  status : Status
  timestamp : Nat
  mpesaResponse : MpesaResponse
  mpesaReceiptNumber : Option String
  failureReason : Option String
  callbackReceived : Option Nat
  callbackData : Option StkCallback
deriving DecidableEq

/-- Operation `transactions.set(k, v)` on the list view of the Map: replace the entry
at an existing key in place, otherwise append. -/
def mapSet (store : List Transaction) (k : String) (v : Transaction) :
    List Transaction :=
  if store.any (fun t => t.transactionId == k) then
    store.map (fun t => if t.transactionId == k then v else t)
  else store ++ [v]

/-! ## Initiation handler (`POST /api/mpesa/initiate`) -/

/-- The JSON body of an initiation request. Absent `amount`, `phoneNumber`
or `accountReference` are modelled as the empty string (both are falsy to
the validator's checks); `transactionDesc` keeps its optionality because the
handler applies a `||` default to it. -/
structure InitiateBody where
  amount : String
  phoneNumber : String
  accountReference : String
  transactionDesc : Option String
deriving DecidableEq

/-- Function `validatePaymentRequest(data)` from `server.js`: returns the aggregated
error list, in push order, together with the formatted phone number. -/
def validatePaymentRequest (data : InitiateBody) : List String × String :=
  let errors :=
    if data.amount = "" ∨ jsNumber data.amount = none ∨
        (jsParseFloat data.amount).any (fun d => d.ltInt 1) = true then
      ["Invalid amount"]
    else []
  let phone := formatPhoneNumber data.phoneNumber
  let errors :=
    if isCanonicalPhone phone then errors
    else errors ++ ["Invalid phone number format"]
  let errors :=
    if data.accountReference = "" ∨ data.accountReference.length < 3 then
      errors ++ ["Invalid account reference"]
    else errors
  (errors, phone)

/-- The `stkPushData` payload submitted to the gateway. `Amount` is
`Math.round(parseFloat(amount))`, with `none` modelling `NaN`. -/
structure StkPushData where
  BusinessShortCode : String
  Password : String
  Timestamp : String
  TransactionType : String
  Amount : Option ℤ
  PartyA : String
  PartyB : String
  PhoneNumber : String
  CallBackURL : String
  AccountReference : String
  TransactionDesc : String
deriving DecidableEq

/-- Behaviour of the external gateway during one initiation call:
`accessToken = none` models `getAccessToken()` throwing (its `axios.get`
failed or returned no token); `pushResult = .error m` models the push
`axios.post` throwing, with `m` the optional
`error.response?.data?.errorMessage` of the rejected request. -/
structure GatewayBehavior where
  accessToken : Option String
  pushResult : Except (Option String) MpesaResponse

/-- The HTTP response of the initiation handler: `badRequest` is
`res.status(400)` with `ResponseCode: '1'`, `failure` is `res.status(500)`
with `ResponseCode: '1'`, `ok` is the 200 success body. -/
inductive InitiateRes where
  | badRequest (errorMessage : String)
  | failure (errorMessage : String)
  | ok (ResponseCode ResponseDescription : Option String)
      (transactionId : String) (CheckoutRequestID : Option String)
deriving DecidableEq

/-- HTTP status code attached to each initiation response
(`res.status(400)`, `res.status(500)`, default 200). -/
def initiateStatus : InitiateRes → Nat
  | .badRequest _ => 400
  | .failure _ => 500
  | .ok _ _ _ _ => 200

/-- Complete observable outcome of one initiation call: the store after the
call, the HTTP response, whether the token fetch was attempted, and the STK
push payload if one was submitted. -/
structure InitiateOutcome where
  store : List Transaction
  response : InitiateRes
  tokenFetched : Bool
  pushSent : Option StkPushData
deriving DecidableEq

/-- The `POST /api/mpesa/initiate` route handler. `txid` stands for the
generated `generateTransactionId()`, `timestamp` for the 14-digit timestamp
derived from the clock, `now` for `new Date()` at record creation. -/
def initiateHandler (body : InitiateBody) (cfg : MpesaConfig)
    (gw : GatewayBehavior) (txid : String) (timestamp : String) (now : Nat)
    (store : List Transaction) : InitiateOutcome :=
  let v := validatePaymentRequest body
  if v.1.length > 0 then
    { store := store
      response := .badRequest (String.intercalate ", " v.1)
      tokenFetched := false
      pushSent := none }
  else
    match gw.accessToken with
    | none =>
      { store := store
        response := .failure "Payment initiation failed"
        tokenFetched := true
        pushSent := none }
    | some _ =>
      let password := generatePassword cfg timestamp
      let stkPushData : StkPushData :=
        { BusinessShortCode := cfg.businessShortCode
          Password := password
          Timestamp := timestamp
          TransactionType := "CustomerPayBillOnline"
          Amount := (jsParseFloat body.amount).map jsRound
          PartyA := v.2
          PartyB := cfg.businessShortCode
          PhoneNumber := v.2
          CallBackURL := cfg.callbackURL
          AccountReference := body.accountReference
          TransactionDesc := jsOr body.transactionDesc "Payment for services" }
      match gw.pushResult with
      | .error gwMsg =>
        { store := store
          response := .failure (jsOr gwMsg "Payment initiation failed")
          tokenFetched := true
          pushSent := some stkPushData }
      | .ok m =>
        let transaction : Transaction :=
          { transactionId := txid
            checkoutRequestId := m.CheckoutRequestID
            merchantRequestId := m.MerchantRequestID
            amount := jsParseFloat body.amount
            phoneNumber := v.2
            accountReference := body.accountReference
            status := .PENDING
            timestamp := now
            mpesaResponse := m
            mpesaReceiptNumber := none
            failureReason := none
            callbackReceived := none
            callbackData := none }
        { store := mapSet store txid transaction
          response := .ok m.ResponseCode m.ResponseDescription txid m.CheckoutRequestID
          tokenFetched := true
          pushSent := some stkPushData }

/-! ## Callback handler (`POST /api/mpesa/callback`) -/

/-- The acknowledgment the callback handler returns to the gateway. -/
structure CallbackAck where
  ResultCode : Int
  ResultDesc : String
deriving DecidableEq

/-- The mandatory success-shaped acknowledgment
`{ResultCode: 0, ResultDesc: 'Success'}`. -/
def ackSuccess : CallbackAck := { ResultCode := 0, ResultDesc := "Success" }

/-- The receipt-number extraction of the success branch:
`stkCallback.CallbackMetadata?.Item?.find(item => item.Name === 'MpesaReceiptNumber')?.Value`. -/
def receiptOf (cb : StkCallback) : Option String :=
  ((cb.CallbackMetadata.bind (fun md => md.Item)).bind
    (fun items => items.find? (fun it => it.Name == some "MpesaReceiptNumber"))).bind
    (fun it => it.Value)

/-- The in-place mutation the callback handler applies to the transaction it
found: result code `0` sets `SUCCESS` and the extracted receipt number, any
other (or absent) result code sets `FAILED` and stores `ResultDesc` as the
failure reason; both branches stamp `callbackReceived` and `callbackData`. -/
def applyCallback (t : Transaction) (cb : StkCallback) (now : Nat) : Transaction :=
  let t1 :=
    if cb.ResultCode = some 0 then
      { t with status := .SUCCESS, mpesaReceiptNumber := receiptOf cb }
    else
      { t with status := .FAILED, failureReason := cb.ResultDesc }
  { t1 with callbackReceived := some now, callbackData := some cb }

/-- Mutation of the store by one callback: `Array.from(transactions.values())
.find(t => t.checkoutRequestId === stkCallback.CheckoutRequestID)` finds the
first matching record, which is then mutated in place; every other record is
untouched, and no match leaves the store unchanged. -/
def updateFirst (store : List Transaction) (cb : StkCallback) (now : Nat) :
    List Transaction :=
  match store with
  | [] => []
  | t :: rest =>
    if t.checkoutRequestId = cb.CheckoutRequestID then
      applyCallback t cb now :: rest
    else
      t :: updateFirst rest cb now

/-- The `POST /api/mpesa/callback` route handler. `body = none` models a
payload without the `Body.stkCallback` envelope: reading it throws inside the
`try`, the `catch` swallows the error before any store mutation, and both
paths answer with the mandatory success acknowledgment. -/
def callbackHandler (body : Option StkCallback) (now : Nat)
    (store : List Transaction) : List Transaction × CallbackAck :=
  match body with
  | none => (store, ackSuccess)
  | some cb => (updateFirst store cb now, ackSuccess)

/-! ## Status query (`GET /api/mpesa/status/:transactionId`) -/

/-- Response of the status query: 404 with an error body, or 200 with the
record's public fields. -/
inductive StatusRes where
  | notFound (error : String)
  | ok (transactionId : String) (status : Status) (amount : Option Decimal)
      (phoneNumber : String) (timestamp : Nat) (mpesaReceiptNumber : Option String)
deriving DecidableEq

/-- HTTP status code of a status-query response. -/
def statusQueryStatus : StatusRes → Nat
  | .notFound _ => 404
  | .ok _ _ _ _ _ _ => 200

/-- The `GET /api/mpesa/status/:transactionId` route handler:
`transactions.get(transactionId)` then either the 404 error body or the
record's public fields. The store is returned unchanged alongside the
response (the handler only reads it). -/
def statusHandler (transactionId : String) (store : List Transaction) :
    List Transaction × StatusRes :=
  match store.find? (fun t => t.transactionId == transactionId) with
  | none => (store, .notFound "Transaction not found")
  | some t =>
    (store, .ok transactionId t.status t.amount t.phoneNumber t.timestamp
      t.mpesaReceiptNumber)

/-! ## Payment wizard (`MpesaPayment.tsx`) -/

/-- The `FormStep` union type of the wizard. -/
inductive FormStep where
  | amount
  | phone
  | pin
  | processing
  | success
  | error
deriving DecidableEq

/-- The wizard's `FormData` state: all three fields are controlled string
inputs. -/
structure FormData where
  amount : String
  phoneNumber : String
  pin : String
deriving DecidableEq

/-- The wizard state touched by `initiatePayment`: current step, inline error
text, loading flag. -/
structure WizardState where
  step : FormStep
  error : String
  loading : Bool
deriving DecidableEq

/-- Outcome of the `fetch('/api/mpesa/initiate')` call as the wizard sees it:
either the promise rejected (`thrown`), or a response arrived with `ok`
(status in the 2xx range) and a JSON body whose `ResponseCode` and
`errorMessage` fields may each be absent. -/
inductive FetchOutcome where
  | thrown
  | returned (ok : Bool) (ResponseCode : Option String) (errorMessage : Option String)
deriving DecidableEq

/-- The JSON body `initiatePayment` sends: amount and phone from the form
data, `accountReference` is `'ORDER_' + Date.now()`, `transactionDesc` a
constant. The PIN is not read. -/
def buildInitiateBody (fd : FormData) (now : Nat) : InitiateBody :=
  { amount := fd.amount
    phoneNumber := fd.phoneNumber
    accountReference := "ORDER_" ++ toString now
    transactionDesc := some "Payment for services" }

/-- The wizard's `initiatePayment`: enter `processing` with `loading` set,
send the request, then resolve — 2xx with `ResponseCode === '0'` goes to
`success`; any other body or status sets the server's `errorMessage` (or,
when it is absent or empty and hence falsy to `||`, the generic failure
text) and goes to `error`; a thrown fetch sets the generic network-error
text and goes to `error`; `finally` clears `loading`. Returns the final
state together with the request body sent. -/
def initiatePayment (fd : FormData) (s : WizardState) (now : Nat)
    (o : FetchOutcome) : WizardState × InitiateBody :=
  let s := { s with loading := true, step := FormStep.processing }
  let s :=
    match o with
    | .thrown =>
      { s with error := "Network error. Please check your connection and try again."
               step := FormStep.error }
    | .returned ok code msg =>
      if ok = true ∧ code = some "0" then
        { s with step := FormStep.success }
      else
        { s with error := jsOr msg "Payment failed. Please try again."
                 step := FormStep.error }
  ({ s with loading := false }, buildInitiateBody fd now)

/-! ## Theorems -/

/-- A list in canonical phone form is a fixed point of the normalization. -/
theorem formatPhoneList_canonical (l : List Char) (h : isCanonicalList l = true) :
    formatPhoneList l = l := by
  simp only [isCanonicalList, Bool.and_eq_true, beq_iff_eq, List.all_eq_true] at h
  obtain ⟨⟨hlen, htake⟩, hdig⟩ := h
  have hfil : l.filter (fun c => c.isDigit) = l := List.filter_eq_self.mpr hdig
  have h1 : l.take 1 = ['2'] := by
    have h2 : (l.take 3).take 1 = l.take 1 := by
      rw [List.take_take]
      norm_num
    rw [htake] at h2
    simpa using h2.symm
  simp only [formatPhoneList, hfil, h1]
  simp [htake]

/-- C2: phone normalization is idempotent — every string already in canonical
form (`254` followed by nine digits) is returned unchanged by
`formatPhoneNumber` — and the inputs `"0712345678"`, `"712345678"` and
`"254712345678"` all normalize to `"254712345678"`. -/
theorem claim_C2_phone_normalization :
    (∀ s, isCanonicalPhone s = true → formatPhoneNumber s = s)
    ∧ formatPhoneNumber "0712345678" = "254712345678"
    ∧ formatPhoneNumber "712345678" = "254712345678"
    ∧ formatPhoneNumber "254712345678" = "254712345678" := by
  refine ⟨?_, by decide, by decide, by decide⟩
  intro s h
  cases s with
  | mk l =>
    show String.mk (formatPhoneList l) = String.mk l
    rw [formatPhoneList_canonical l h]

/-- C2 witness: the canonical number `"254700000000"` is left unchanged. -/
theorem claim_C2_phone_normalization_witness :
    isCanonicalPhone "254700000000" = true ∧
      formatPhoneNumber "254700000000" = "254700000000" :=
  ⟨by decide, claim_C2_phone_normalization.1 "254700000000" (by decide)⟩

/-- C5: for every callback request — whatever the payload shape (including a
payload missing the `Body.stkCallback` envelope, modelled by `none`),
whatever the store contents, and on the internal-error path alike — the
callback handler answers with the success-shaped acknowledgment
`{ResultCode: 0, ResultDesc: 'Success'}` and never propagates an error. -/
theorem claim_C5_callback_always_acks_success :
    ∀ (body : Option StkCallback) (now : Nat) (store : List Transaction),
      (callbackHandler body now store).2 = ackSuccess := by
  intro body now store
  cases body <;> rfl

/-- C9: a status query for a `transactionId` absent from the store responds
404 with an error body; for a present id it responds 200 with exactly the
record's current public fields, and in both cases the store is returned
unchanged. -/
theorem claim_C9_status_query :
    ∀ (transactionId : String) (store : List Transaction),
      (store.find? (fun u => u.transactionId == transactionId) = none →
        statusHandler transactionId store =
          (store, StatusRes.notFound "Transaction not found") ∧
        statusQueryStatus (statusHandler transactionId store).2 = 404)
      ∧ (∀ t, store.find? (fun u => u.transactionId == transactionId) = some t →
          statusHandler transactionId store =
            (store, StatusRes.ok transactionId t.status t.amount t.phoneNumber
              t.timestamp t.mpesaReceiptNumber) ∧
          statusQueryStatus (statusHandler transactionId store).2 = 200) := by
  intro transactionId store
  constructor
  · intro h
    constructor
    · simp [statusHandler, h]
    · simp [statusHandler, h, statusQueryStatus]
  · intro t h
    constructor
    · simp [statusHandler, h]
    · simp [statusHandler, h, statusQueryStatus]

/-- C9 witness: querying any id against the empty store is a 404. -/
theorem claim_C9_status_query_witness :
    statusHandler "TXN_1" [] = ([], StatusRes.notFound "Transaction not found") ∧
      statusQueryStatus (statusHandler "TXN_1" []).2 = 404 :=
  (claim_C9_status_query "TXN_1" []).1 rfl

/-- C6: resolution policy of the wizard's initiation call — a 2xx response
whose `ResponseCode` is `"0"` moves the wizard to `success`; any other
response code, any non-2xx status, or a thrown fetch moves it to `error`,
with the server's `errorMessage` when present and the generic failure or
network-error text otherwise (a present-but-empty `errorMessage` is falsy to
the `||` fallback and also yields the generic failure text). -/
theorem claim_C6_wizard_resolution :
    ∀ (fd : FormData) (s : WizardState) (now : Nat),
      (∀ good code msg, good = true → code = some "0" →
        (initiatePayment fd s now (.returned good code msg)).1.step =
          FormStep.success)
      ∧ (∀ good code msg, ¬(good = true ∧ code = some "0") →
          (initiatePayment fd s now (.returned good code msg)).1.step =
            FormStep.error ∧
          (initiatePayment fd s now (.returned good code msg)).1.error =
            jsOr msg "Payment failed. Please try again.")
      ∧ ((initiatePayment fd s now FetchOutcome.thrown).1.step = FormStep.error ∧
         (initiatePayment fd s now FetchOutcome.thrown).1.error =
           "Network error. Please check your connection and try again.") := by
  intro fd s now
  refine ⟨?_, ?_, by simp [initiatePayment]⟩
  · intro good code msg h1 h2
    subst h1
    subst h2
    simp [initiatePayment]
  · intro good code msg h
    constructor
    · simp [initiatePayment, h]
    · simp [initiatePayment, h]

/-- C6 witness: a 2xx response with `ResponseCode = "0"` resolves to
`success`, and a rejected response with a server message resolves to `error`
carrying that message. -/
theorem claim_C6_wizard_resolution_witness :
    (initiatePayment { amount := "500", phoneNumber := "254712345678", pin := "1234" }
        { step := FormStep.processing, error := "", loading := true } 0
        (.returned true (some "0") none)).1.step = FormStep.success ∧
    (initiatePayment { amount := "500", phoneNumber := "254712345678", pin := "1234" }
        { step := FormStep.processing, error := "", loading := true } 0
        (.returned false none (some "boom"))).1.error =
      jsOr (some "boom") "Payment failed. Please try again." ∧
    jsOr (some "boom") "Payment failed. Please try again." = "boom" :=
  ⟨(claim_C6_wizard_resolution
      { amount := "500", phoneNumber := "254712345678", pin := "1234" }
      { step := FormStep.processing, error := "", loading := true } 0).1
      true (some "0") none rfl rfl,
   ((claim_C6_wizard_resolution
      { amount := "500", phoneNumber := "254712345678", pin := "1234" }
      { step := FormStep.processing, error := "", loading := true } 0).2.1
      false none (some "boom") (by simp)).2,
   by decide⟩

/-- C10: the PIN never leaves the client — two wizard runs that differ only
in the entered PIN send identical HTTP request bodies, and the body type
`InitiateBody` carries only `amount`, `phoneNumber`, `accountReference` and
`transactionDesc`, no field derived from the PIN. -/
theorem claim_C10_pin_never_sent :
    ∀ (fd₁ fd₂ : FormData) (s₁ s₂ : WizardState) (now : Nat)
      (o₁ o₂ : FetchOutcome),
      fd₁.amount = fd₂.amount → fd₁.phoneNumber = fd₂.phoneNumber →
      (initiatePayment fd₁ s₁ now o₁).2 = (initiatePayment fd₂ s₂ now o₂).2 := by
  intro fd₁ fd₂ s₁ s₂ now o₁ o₂ h1 h2
  simp [initiatePayment, buildInitiateBody, h1, h2]

/-- C10 witness: runs with PINs `"1234"` and `"9999"` send the same body. -/
theorem claim_C10_pin_never_sent_witness :
    (initiatePayment { amount := "500", phoneNumber := "254712345678", pin := "1234" }
        { step := FormStep.processing, error := "", loading := true } 17
        FetchOutcome.thrown).2 =
      (initiatePayment { amount := "500", phoneNumber := "254712345678", pin := "9999" }
        { step := FormStep.processing, error := "", loading := true } 17
        FetchOutcome.thrown).2 :=
  claim_C10_pin_never_sent
    { amount := "500", phoneNumber := "254712345678", pin := "1234" }
    { amount := "500", phoneNumber := "254712345678", pin := "9999" }
    { step := FormStep.processing, error := "", loading := true }
    { step := FormStep.processing, error := "", loading := true }
    17 FetchOutcome.thrown FetchOutcome.thrown rfl rfl

/-- C8: for every 14-digit timestamp, `generatePassword` is the base64
encoding of the concatenation short code ++ passkey ++ timestamp. -/
theorem claim_C8_generate_password :
    ∀ (cfg : MpesaConfig) (timestamp : String), timestamp.length = 14 →
      generatePassword cfg timestamp =
        base64EncodeStr (cfg.businessShortCode ++ cfg.passkey ++ timestamp) :=
  fun _ _ _ => rfl

/-- A concrete configuration used by witnesses. -/
def cfgDemo : MpesaConfig :=
  { consumerKey := "ck"
    consumerSecret := "cs"
    businessShortCode := "174379"
    passkey := "demo-passkey"
    callbackURL := "https://example.com/callback" }

/-- C8 witness: the password for the demo configuration at timestamp
`20240101120000` is the base64 of the concatenation, which evaluates to the
expected literal. -/
theorem claim_C8_generate_password_witness :
    ("20240101120000" : String).length = 14 ∧
      generatePassword cfgDemo "20240101120000" =
        base64EncodeStr (cfgDemo.businessShortCode ++ cfgDemo.passkey ++
          "20240101120000") ∧
      generatePassword cfgDemo "20240101120000" =
        "MTc0Mzc5ZGVtby1wYXNza2V5MjAyNDAxMDExMjAwMDA=" :=
  ⟨by decide, claim_C8_generate_password cfgDemo "20240101120000" (by decide),
   by decide⟩

/-- C3: an initiation request that fails validation is answered 400 with the
aggregated, comma-joined list of all failed checks; no token fetch and no
push happen and the store is unchanged. -/
theorem claim_C3_validation_rejects :
    ∀ (body : InitiateBody) (cfg : MpesaConfig) (gw : GatewayBehavior)
      (txid timestamp : String) (now : Nat) (store : List Transaction),
      (validatePaymentRequest body).1 ≠ [] →
      initiateHandler body cfg gw txid timestamp now store =
        { store := store
          response := .badRequest
            (String.intercalate ", " (validatePaymentRequest body).1)
          tokenFetched := false
          pushSent := none } ∧
      initiateStatus
        (initiateHandler body cfg gw txid timestamp now store).response = 400 := by
  intro body cfg gw txid timestamp now store h
  have hl : (validatePaymentRequest body).1.length > 0 := List.length_pos.mpr h
  constructor
  · simp [initiateHandler, hl]
  · simp [initiateHandler, hl, initiateStatus]

/-- A request body failing all three validation checks. -/
def bodyBad : InitiateBody :=
  { amount := "", phoneNumber := "abc", accountReference := "",
    transactionDesc := none }

/-- A gateway that accepts the push. -/
def gwDemo : GatewayBehavior :=
  { accessToken := some "tok"
    pushResult := .ok
      { ResponseCode := some "0"
        ResponseDescription := some "Success. Request accepted for processing"
        MerchantRequestID := some "m1"
        CheckoutRequestID := some "ws_CO_1" } }

/-- C3 witness: the all-invalid body is rejected with all three error
messages, without touching the gateway or the store. -/
theorem claim_C3_validation_rejects_witness :
    initiateHandler bodyBad cfgDemo gwDemo "TXN_1" "20240101120000" 0 [] =
      { store := []
        response := .badRequest
          (String.intercalate ", " (validatePaymentRequest bodyBad).1)
        tokenFetched := false
        pushSent := none } ∧
    initiateStatus
      (initiateHandler bodyBad cfgDemo gwDemo "TXN_1" "20240101120000" 0 []).response
      = 400 :=
  claim_C3_validation_rejects bodyBad cfgDemo gwDemo "TXN_1" "20240101120000" 0 []
    (by decide)

/-- C4: a validated initiation whose gateway interaction fails — token
exchange error, or rejected/failed push — is answered 500 with the gateway's
error message when present (and, by the `||` fallback, non-empty) and the
generic initiation-failed message otherwise, and no record is inserted: the
store is unchanged. -/
theorem claim_C4_gateway_failure :
    ∀ (body : InitiateBody) (cfg : MpesaConfig) (gw : GatewayBehavior)
      (txid timestamp : String) (now : Nat) (store : List Transaction),
      (validatePaymentRequest body).1 = [] →
      (gw.accessToken = none →
        initiateHandler body cfg gw txid timestamp now store =
          { store := store
            response := .failure "Payment initiation failed"
            tokenFetched := true
            pushSent := none } ∧
        initiateStatus
          (initiateHandler body cfg gw txid timestamp now store).response = 500)
      ∧ (∀ tok gwMsg, gw.accessToken = some tok → gw.pushResult = .error gwMsg →
          (initiateHandler body cfg gw txid timestamp now store).store = store ∧
          (initiateHandler body cfg gw txid timestamp now store).response =
            .failure (jsOr gwMsg "Payment initiation failed") ∧
          initiateStatus
            (initiateHandler body cfg gw txid timestamp now store).response = 500) := by
  intro body cfg gw txid timestamp now store h
  constructor
  · intro ht
    constructor
    · simp [initiateHandler, h, ht]
    · simp [initiateHandler, h, ht, initiateStatus]
  · intro tok gwMsg ht hp
    refine ⟨?_, ?_, ?_⟩
    · simp [initiateHandler, h, ht, hp]
    · simp [initiateHandler, h, ht, hp]
    · simp [initiateHandler, h, ht, hp, initiateStatus]

/-- A request body passing all three validation checks. -/
def bodyGood : InitiateBody :=
  { amount := "500", phoneNumber := "0712345678", accountReference := "ORD123",
    transactionDesc := none }

/-- A gateway whose token exchange fails. -/
def gwNoAuth : GatewayBehavior :=
  { accessToken := none, pushResult := .error none }

/-- A gateway that rejects the push with a present-but-empty error message. -/
def gwRejectEmpty : GatewayBehavior :=
  { accessToken := some "tok", pushResult := .error (some "") }

/-- C4 witness: a valid body against the failing-auth gateway yields the 500
generic failure and leaves the store empty; against a push rejection whose
error message is present but empty, the falsy `||` fallback also yields the
generic failure message. -/
theorem claim_C4_gateway_failure_witness :
    initiateHandler bodyGood cfgDemo gwNoAuth "TXN_1" "20240101120000" 0 [] =
      { store := []
        response := .failure "Payment initiation failed"
        tokenFetched := true
        pushSent := none } ∧
    initiateStatus
      (initiateHandler bodyGood cfgDemo gwNoAuth "TXN_1" "20240101120000" 0 []).response
      = 500 ∧
    (initiateHandler bodyGood cfgDemo gwRejectEmpty "TXN_1" "20240101120000" 0
      []).response = .failure (jsOr (some "") "Payment initiation failed") ∧
    jsOr (some "") "Payment initiation failed" = "Payment initiation failed" :=
  ⟨((claim_C4_gateway_failure bodyGood cfgDemo gwNoAuth "TXN_1" "20240101120000" 0 []
      (by decide)).1 rfl).1,
   ((claim_C4_gateway_failure bodyGood cfgDemo gwNoAuth "TXN_1" "20240101120000" 0 []
      (by decide)).1 rfl).2,
   ((claim_C4_gateway_failure bodyGood cfgDemo gwRejectEmpty "TXN_1" "20240101120000"
      0 [] (by decide)).2 "tok" (some "") rfl rfl).2.1,
   by decide⟩

/-- C7: every push payload that reaches the gateway carries
`Amount = Math.round(parseFloat(amount))` — the parsed decimal rounded to
the nearest integer, `⌊x + 1/2⌋` — and has both `PartyA` and `PhoneNumber`
equal to the normalized phone number. -/
theorem claim_C7_push_payload_fields :
    ∀ (body : InitiateBody) (cfg : MpesaConfig) (gw : GatewayBehavior)
      (txid timestamp : String) (now : Nat) (store : List Transaction)
      (p : StkPushData),
      (initiateHandler body cfg gw txid timestamp now store).pushSent = some p →
      p.Amount = (jsParseFloat body.amount).map jsRound ∧
      (∀ d, jsParseFloat body.amount = some d →
        p.Amount = some ⌊d.toRat + 1 / 2⌋) ∧
      p.PartyA = formatPhoneNumber body.phoneNumber ∧
      p.PhoneNumber = formatPhoneNumber body.phoneNumber := by
  intro body cfg gw txid timestamp now store p h
  have key : p.Amount = (jsParseFloat body.amount).map jsRound ∧
      p.PartyA = formatPhoneNumber body.phoneNumber ∧
      p.PhoneNumber = formatPhoneNumber body.phoneNumber := by
    by_cases hv : (validatePaymentRequest body).1.length > 0
    · simp [initiateHandler, hv] at h
    · cases htok : gw.accessToken with
      | none => simp [initiateHandler, hv, htok] at h
      | some tok =>
        cases hp : gw.pushResult with
        | error m =>
          simp [initiateHandler, hv, htok, hp] at h
          subst h
          exact ⟨rfl, rfl, rfl⟩
        | ok m =>
          simp [initiateHandler, hv, htok, hp] at h
          subst h
          exact ⟨rfl, rfl, rfl⟩
  refine ⟨key.1, ?_, key.2.1, key.2.2⟩
  intro d hd
  rw [key.1, hd]
  simp [jsRound_eq_floor]

/-- The payload the demo initiation submits. -/
def pushDemo : StkPushData :=
  { BusinessShortCode := "174379"
    Password := "MTc0Mzc5ZGVtby1wYXNza2V5MjAyNDAxMDExMjAwMDA="
    Timestamp := "20240101120000"
    TransactionType := "CustomerPayBillOnline"
    Amount := some 500
    PartyA := "254712345678"
    PartyB := "174379"
    PhoneNumber := "254712345678"
    CallBackURL := "https://example.com/callback"
    AccountReference := "ORD123"
    TransactionDesc := "Payment for services" }

/-- C7 witness: the valid body `amount = "500"`, `phone = "0712345678"`
reaches the gateway with `Amount = 500` and both party fields equal to
`254712345678`. -/
theorem claim_C7_push_payload_fields_witness :
    pushDemo.Amount = (jsParseFloat bodyGood.amount).map jsRound ∧
    pushDemo.PartyA = formatPhoneNumber bodyGood.phoneNumber ∧
    pushDemo.PhoneNumber = formatPhoneNumber bodyGood.phoneNumber :=
  ⟨(claim_C7_push_payload_fields bodyGood cfgDemo gwDemo "TXN_1" "20240101120000"
      0 [] pushDemo (by decide)).1,
   (claim_C7_push_payload_fields bodyGood cfgDemo gwDemo "TXN_1" "20240101120000"
      0 [] pushDemo (by decide)).2.2.1,
   (claim_C7_push_payload_fields bodyGood cfgDemo gwDemo "TXN_1" "20240101120000"
      0 [] pushDemo (by decide)).2.2.2⟩

/-- A transaction that is already resolved `SUCCESS`. -/
def txResolved : Transaction :=
  { transactionId := "TXN_1"
    checkoutRequestId := some "ws_CO_1"
    merchantRequestId := some "m1"
    amount := some { num := 500, scale := 0 }
    phoneNumber := "254712345678"
    accountReference := "ORD123"
    status := .SUCCESS
    timestamp := 0
    mpesaResponse :=
      { ResponseCode := some "0"
        ResponseDescription := some "Success. Request accepted for processing"
        MerchantRequestID := some "m1"
        CheckoutRequestID := some "ws_CO_1" }
    mpesaReceiptNumber := some "RCPT1"
    failureReason := none
    callbackReceived := some 1
    callbackData := none }

/-- A failure callback whose correlation id matches `txResolved`. -/
def cbFail : StkCallback :=
  { MerchantRequestID := some "m1"
    CheckoutRequestID := some "ws_CO_1"
    ResultCode := some 1032
    ResultDesc := some "Request cancelled by user"
    CallbackMetadata := none }

/-- C1 counterexample: the callback handler carries no already-resolved
check — delivering a failure callback for the store holding only the
`SUCCESS` record `txResolved` does not leave the record unchanged: its
status is overwritten to `FAILED`. -/
theorem claim_C1_counterexample :
    (callbackHandler (some cbFail) 2 [txResolved]).1 ≠ [txResolved] ∧
    (callbackHandler (some cbFail) 2 [txResolved]).1.map (fun t => t.status) =
      [Status.FAILED] := by
  constructor
  · decide
  · decide

/-- The callback handler rewrites the first record whose correlation id
matches and keeps every other record. -/
theorem updateFirst_append (pre rest : List Transaction) (t : Transaction)
    (cb : StkCallback) (now : Nat)
    (hpre : ∀ u ∈ pre, u.checkoutRequestId ≠ cb.CheckoutRequestID)
    (ht : t.checkoutRequestId = cb.CheckoutRequestID) :
    updateFirst (pre ++ t :: rest) cb now =
      pre ++ applyCallback t cb now :: rest := by
  induction pre with
  | nil => simp [updateFirst, ht]
  | cons u pre ih =>
    have hu : ¬(u.checkoutRequestId = cb.CheckoutRequestID) := hpre u (by simp)
    simp only [List.cons_append, updateFirst, if_neg hu, List.cons.injEq, true_and]
    exact ih (fun v hv => hpre v (List.mem_cons_of_mem u hv))

/-- C1 (amended): the callback handler applies the result unconditionally to
the first record whose `checkoutRequestId` matches the callback's
`CheckoutRequestID`: the record's status becomes `SUCCESS` exactly when the
result code is `0` and `FAILED` otherwise, regardless of its prior status —
a callback for an already-resolved record overwrites the resolution instead
of being ignored — while all other records are untouched; and status is
still mutated nowhere else: initiation only adds fresh `PENDING` records and
the status query changes nothing. -/
theorem claim_C1_callback_overwrites_status :
    (∀ (pre rest : List Transaction) (t : Transaction) (cb : StkCallback)
      (now : Nat),
      (∀ u ∈ pre, u.checkoutRequestId ≠ cb.CheckoutRequestID) →
      t.checkoutRequestId = cb.CheckoutRequestID →
      (callbackHandler (some cb) now (pre ++ t :: rest)).1 =
        pre ++ applyCallback t cb now :: rest ∧
      (applyCallback t cb now).status =
        (if cb.ResultCode = some 0 then Status.SUCCESS else Status.FAILED))
    ∧ (∀ (body : InitiateBody) (cfg : MpesaConfig) (gw : GatewayBehavior)
        (txid timestamp : String) (now : Nat) (store : List Transaction),
        (∀ u ∈ store, u.transactionId ≠ txid) →
        ∀ u ∈ (initiateHandler body cfg gw txid timestamp now store).store,
          u ∈ store ∨ u.status = Status.PENDING)
    ∧ (∀ (transactionId : String) (store : List Transaction),
        (statusHandler transactionId store).1 = store) := by
  refine ⟨?_, ?_, ?_⟩
  · intro pre rest t cb now hpre ht
    refine ⟨updateFirst_append pre rest t cb now hpre ht, ?_⟩
    by_cases hc : cb.ResultCode = some 0
    · simp [applyCallback, hc]
    · simp [applyCallback, hc]
  · intro body cfg gw txid timestamp now store hfresh u hu
    by_cases hv : (validatePaymentRequest body).1.length > 0
    · simp [initiateHandler, hv] at hu
      exact Or.inl hu
    · cases htok : gw.accessToken with
      | none =>
        simp [initiateHandler, hv, htok] at hu
        exact Or.inl hu
      | some tok =>
        cases hp : gw.pushResult with
        | error m =>
          simp [initiateHandler, hv, htok, hp] at hu
          exact Or.inl hu
        | ok m =>
          have hany : store.any (fun t => t.transactionId == txid) = false :=
            List.any_eq_false.mpr (fun x hx => by simpa using hfresh x hx)
          simp [initiateHandler, hv, htok, hp, mapSet, hany] at hu
          rcases hu with hu | hu
          · exact Or.inl hu
          · exact Or.inr (by rw [hu])
  · intro transactionId store
    cases h : store.find? (fun u => u.transactionId == transactionId) with
    | none => simp [statusHandler, h]
    | some t => simp [statusHandler, h]

/-- C1 witness: applying the amended theorem to the resolved record
`txResolved` and the matching failure callback `cbFail`. -/
theorem claim_C1_callback_overwrites_status_witness :
    (callbackHandler (some cbFail) 2 ([] ++ txResolved :: [])).1 =
      [] ++ applyCallback txResolved cbFail 2 :: [] ∧
    (applyCallback txResolved cbFail 2).status =
      (if cbFail.ResultCode = some 0 then Status.SUCCESS else Status.FAILED) :=
  claim_C1_callback_overwrites_status.1 [] [] txResolved cbFail 2
    (by simp) rfl

end Mpesa
